import Mathlib

/-
Verification development for the mssql-test-framework repository.

The core under study is the stored-procedure result comparison engine
(src/core/comparison.py), the test executor (src/core/executor.py), the
parameter parsing utilities (src/utils/parameter_parser.py), the data model
(src/models/test_case.py) and the result-set capture loop of
src/config/database.py.  Each Python function is shallowly embedded as an
executable Lean definition; machine floats are not modeled (the only
float-specific behavior that matters to the comparison logic is the NaN
null-likeness used by pandas isna, modeled by an explicit nan constructor).
Wall-clock timings, logging and database connectivity are external effects
and are not modeled; procedure invocations are recorded in an explicit
trace so that ordering properties are expressible.
-/

namespace MSSQL

/-! ## Python-style string helpers

The Python sources manipulate strings with strip/upper/lower/startswith and
single-character scans.  These helpers mirror those operations on the
character list underlying a string.  Char.isWhitespace covers the space,
tab, carriage-return and newline characters; the Python whitespace class
additionally contains the rare form-feed and vertical-tab characters, which
never occur in the inputs of interest. -/

/-- Python str.strip(): remove leading and trailing whitespace. -/
def py_strip (s : String) : String :=
  String.mk (((s.toList.dropWhile Char.isWhitespace).reverse.dropWhile Char.isWhitespace).reverse)

/-- Python str.upper() (ASCII). -/
def py_upper (s : String) : String :=
  String.mk (s.toList.map Char.toUpper)

/-- Python str.lower() (ASCII). -/
def py_lower (s : String) : String :=
  String.mk (s.toList.map Char.toLower)

/-- Python str.startswith. -/
def py_startswith (s pre : String) : Bool :=
  pre.toList.isPrefixOf s.toList

/-- Python str.endswith. -/
def py_endswith (s suf : String) : Bool :=
  suf.toList.isSuffixOf s.toList

/-- Python substring containment: needle in hay (on exploded strings). -/
def contains_list (needle : List Char) : List Char → Bool
  | [] => needle.isEmpty
  | c :: t => needle.isPrefixOf (c :: t) || contains_list needle t

/-- Python substring containment on strings. -/
def str_contains (hay needle : String) : Bool :=
  contains_list needle.toList hay.toList

/-! ## Cell values and null-aware equality (src/core/comparison.py)

Cells delivered by the database driver are None, NaN, strings or numbers.
The comparison logic only distinguishes null-likeness, strings and exact
numeric values, so numbers are modeled as integers; IEEE floating point
values other than NaN are outside the model. -/

/-- A cell value as seen by StoredProcedureComparator. -/
inductive Value where
  | none
  | nan
  | str (s : String)
  | int (n : Int)
  deriving DecidableEq, Repr

/-- pandas isna: true exactly on None and NaN. -/
def isna : Value → Bool
  | Value.none => true
  | Value.nan => true
  | _ => false

/-- Python equality (==) restricted to the modeled value domain.
None equals None, NaN is not equal to itself, strings and integers compare
by value, and values of different kinds are unequal. -/
def py_eq : Value → Value → Bool
  | Value.none, Value.none => true
  | Value.nan, Value.nan => false
  | Value.str a, Value.str b => a == b
  | Value.int a, Value.int b => a == b
  | _, _ => false

/-- StoredProcedureComparator._normalize_value: None, NaN and all-whitespace
strings are unified to the empty string; every other value is unchanged. -/
def normalize_value (v : Value) : Value :=
  if isna v || (match v with | Value.str s => py_strip s == "" | _ => false) then
    Value.str ""
  else v

/-- StoredProcedureComparator._values_equal: if both sides are None/NaN the
cells are equal; if exactly one side is None/NaN they differ; otherwise the
normalized values are compared with Python equality.  The string-conversion
fallback of the source only triggers when == raises, which cannot happen on
the modeled value domain. -/
def values_equal (v1 v2 : Value) : Bool :=
  if isna v1 && isna v2 then true
  else if isna v1 != isna v2 then false
  else py_eq (normalize_value v1) (normalize_value v2)

/-! ## Result sets and the structured diff -/

/-- One tabular result set: the columns/data dictionary built by
DatabaseConnection.execute_stored_procedure. -/
structure ResultSet where
  columns : List String
  data : List (List Value)
  deriving DecidableEq, Repr

/-- The category tags used in the type field of difference records. -/
inductive DiffCategory where
  | result_set_count
  | column_structure
  | row_count
  | data_difference
  | data_comparison_error
  deriving DecidableEq, Repr

/-- A difference record, keeping the structured payload of the Python
dictionaries (the human-readable message strings are rendering only and are
not modeled). -/
inductive Difference where
  | result_set_count (original_count tuned_count : Nat)
  | column_structure (result_set_index : Nat) (original_columns tuned_columns : List String)
  | row_count (result_set_index original_count tuned_count : Nat)
  | data_difference (result_set_index : Nat) (column : String)
      (different_rows : List Nat) (sample_differences : List (Nat × Value × Value))
  | data_comparison_error (result_set_index : Nat) (error : String)
  deriving DecidableEq, Repr

/-- The category of a difference record. -/
def Difference.category : Difference → DiffCategory
  | Difference.result_set_count _ _ => DiffCategory.result_set_count
  | Difference.column_structure _ _ _ => DiffCategory.column_structure
  | Difference.row_count _ _ _ => DiffCategory.row_count
  | Difference.data_difference _ _ _ _ => DiffCategory.data_difference
  | Difference.data_comparison_error _ _ => DiffCategory.data_comparison_error

/-- The ComparisonResult dataclass. -/
structure ComparisonResult where
  is_equal : Bool
  differences : List Difference
  result_set_count_match : Bool
  column_structure_match : Bool
  data_match : Bool
  error_message : Option String := Option.none
  deriving DecidableEq, Repr

/-- The configuration fields of StoredProcedureComparator.  numeric_tolerance
is assigned in the constructor but never read by any comparison path. -/
structure Comparator where
  ignore_column_order : Bool := false
  ignore_row_order : Bool := true
  numeric_tolerance : ℚ := 1 / 10 ^ 10
  deriving DecidableEq

/-- The comparator instance built by TestExecutor (all defaults). -/
def default_comparator : Comparator := {}

/-- StoredProcedureComparator._compare_columns. -/
def compare_columns (cfg : Comparator) (original_columns tuned_columns : List String) : Bool :=
  if cfg.ignore_column_order then
    original_columns.all (tuned_columns.contains ·) && tuned_columns.all (original_columns.contains ·)
  else original_columns == tuned_columns

/-- The column count pandas infers for a list-of-rows (ragged rows are padded
to the widest row). -/
def max_row_len (data : List (List Value)) : Nat :=
  data.foldr (fun r m => max r.length m) 0

/-- The condition under which pd.DataFrame(data, columns=cols) raises
ValueError: nonempty data whose inferred width differs from the number of
column labels passed. -/
def df_raises (data : List (List Value)) (cols : List String) : Bool :=
  !data.isEmpty && (max_row_len data != cols.length)

/-- The text of the pandas ValueError raised on a column-count mismatch. -/
def pandas_df_error (data : List (List Value)) (cols : List String) : String :=
  toString cols.length ++ " columns passed, passed data had " ++
    toString (max_row_len data) ++ " columns"

/-- The values of column j of a DataFrame built from data (rows shorter than
the inferred width are padded with NaN). -/
def column_values (data : List (List Value)) (j : Nat) : List Value :=
  data.map (fun row => row.getD j Value.nan)

/-- StoredProcedureComparator._detailed_data_comparison: for each column name
(first occurrence wins when names repeat, matching the iloc[:, 0] selection),
compare the two columns row by row with values_equal, collect all differing
row indices and up to 5 sampled pairs, and emit one data_difference per
column that has any mismatch. -/
def detailed_data_comparison (original_data tuned_data : List (List Value))
    (cols : List String) (result_set_index : Nat) : List Difference :=
  cols.flatMap (fun name =>
    let j := cols.indexOf name
    let ov := column_values original_data j
    let tv := column_values tuned_data j
    let diff_pairs := ((ov.zip tv).enum).filter (fun p => !(values_equal p.2.1 p.2.2))
    let diff_rows := diff_pairs.map (fun p => p.1)
    let samples := (diff_pairs.take 5).map (fun p => (p.1, p.2.1, p.2.2))
    if diff_rows.isEmpty then []
    else [Difference.data_difference result_set_index name diff_rows samples])

/-- StoredProcedureComparator._compare_data: a row-count mismatch yields a
single row_count difference and stops; a DataFrame-construction failure is
caught and converted into a data_comparison_error difference (the original
side is converted first, so its error wins); otherwise the detailed
comparison runs. -/
def compare_data (original_data tuned_data : List (List Value))
    (cols : List String) (result_set_index : Nat) : List Difference :=
  if original_data.length ≠ tuned_data.length then
    [Difference.row_count result_set_index original_data.length tuned_data.length]
  else if df_raises original_data cols then
    [Difference.data_comparison_error result_set_index (pandas_df_error original_data cols)]
  else if df_raises tuned_data cols then
    [Difference.data_comparison_error result_set_index (pandas_df_error tuned_data cols)]
  else detailed_data_comparison original_data tuned_data cols result_set_index

/-- The dictionary returned by _compare_single_result_set. -/
structure SingleSetComparison where
  differences : List Difference
  column_structure_match : Bool
  data_match : Bool
  deriving DecidableEq, Repr

/-- StoredProcedureComparator._compare_single_result_set: data comparison
runs only when the column structures match, and data_match stays true when
it is skipped. -/
def compare_single_result_set (cfg : Comparator) (original tuned : ResultSet)
    (result_set_index : Nat) : SingleSetComparison :=
  let csm := compare_columns cfg original.columns tuned.columns
  let column_diffs : List Difference :=
    if csm then []
    else [Difference.column_structure result_set_index original.columns tuned.columns]
  let data_diffs : List Difference :=
    if csm then compare_data original.data tuned.data original.columns result_set_index
    else []
  { differences := column_diffs ++ data_diffs
    column_structure_match := csm
    data_match := if csm then data_diffs.isEmpty else true }

/-- One step of the aggregation loop of compare_results: a result set that
produced differences appends them and clears a flag when its own flag is
clear. -/
def aggregate_step (acc : List Difference × Bool × Bool) (r : SingleSetComparison) :
    List Difference × Bool × Bool :=
  if r.differences.isEmpty then acc
  else (acc.1 ++ r.differences, acc.2.1 && r.column_structure_match, acc.2.2 && r.data_match)

/-- StoredProcedureComparator.compare_results.  A result-set count mismatch
returns immediately with a single result_set_count difference and all flags
false.  Otherwise each zipped pair is compared and the per-set outcomes are
aggregated.  The outer exception handler of the source (returning all flags
false with error_message set) is unreachable on the modeled inputs because
every exception source inside the comparison is caught earlier, so the
embedding is a total function whose error_message is always None. -/
def compare_results (cfg : Comparator) (original_results tuned_results : List ResultSet) :
    ComparisonResult :=
  if original_results.length ≠ tuned_results.length then
    { is_equal := false
      differences := [Difference.result_set_count original_results.length tuned_results.length]
      result_set_count_match := false
      column_structure_match := false
      data_match := false }
  else
    let per := ((original_results.zip tuned_results).enum).map
      (fun p => compare_single_result_set cfg p.2.1 p.2.2 p.1)
    let agg := per.foldl aggregate_step ([], true, true)
    { is_equal := agg.1.isEmpty
      differences := agg.1
      result_set_count_match := true
      column_structure_match := agg.2.1
      data_match := agg.2.2 }

/-! ## Result-set capture (src/config/database.py)

DatabaseConnection.execute_stored_procedure walks the result sets returned
by the cursor; for each it reads the column metadata (empty when
cursor.description is None) and fetches the rows, and appends a
columns/data dictionary only when both are nonempty. -/

/-- One raw result set as delivered by the cursor: optional column metadata
(the names from cursor.description) plus the fetched rows. -/
structure RawResultSet where
  description : Option (List String)
  rows : List (List Value)
  deriving DecidableEq, Repr

/-- The column-name list extracted from cursor.description. -/
def raw_columns (r : RawResultSet) : List String :=
  r.description.getD []

/-- The capture loop of execute_stored_procedure: result sets with no rows
or no column metadata are skipped. -/
def capture_result_sets : List RawResultSet → List ResultSet
  | [] => []
  | r :: rest =>
    if !(raw_columns r).isEmpty && !r.rows.isEmpty then
      { columns := raw_columns r, data := r.rows } :: capture_result_sets rest
    else capture_result_sets rest

/-! ## Parameter model and parser (src/models/test_case.py,
src/utils/parameter_parser.py)

Parameter values produced by the parser are None, int, float or str.  A
float literal is kept verbatim: Python parses it to an IEEE double, which is
not modeled and is exercised by no claim. -/

/-- A parsed parameter value. -/
inductive PValue where
  | null
  | int (n : Int)
  | float (lit : String)
  | str (s : String)
  deriving DecidableEq, Repr

/-- Python str() of a parameter value, as used when serializing. -/
def py_str : PValue → String
  | PValue.null => "None"
  | PValue.int n => toString n
  | PValue.float lit => lit
  | PValue.str s => s

/-- The TestParameter dataclass. -/
structure TestParameter where
  name : String
  value : PValue
  data_type : String
  deriving DecidableEq, Repr

/-- A single quote character and the corresponding one-character string
(kept as named helpers so quoted test data can be written without literal
quote characters inside string literals). -/
def squote : Char := '\''

/-- The one-character string holding a single quote. -/
def squote_s : String := String.singleton squote

/-- ParameterParser._split_parameters, one left-to-right scan with a
quoting-state flag; a quote immediately preceded by a backslash does not
toggle the state, and the first character has no predecessor. -/
def split_go : List Char → Option Char → Bool → Option Char → List Char → List String → List String
  | [], _, _, _, current, parts =>
    if current.isEmpty then parts else parts ++ [String.mk current]
  | c :: rest, prev, in_quotes, quote_char, current, parts =>
    let toggles := (c = squote ∨ c = '"') ∧ prev ≠ some '\\'
    let st : Bool × Option Char :=
      if toggles then
        if !in_quotes then (true, some c)
        else if some c = quote_char then (false, Option.none)
        else (in_quotes, quote_char)
      else (in_quotes, quote_char)
    if c = ',' ∧ st.1 = false then
      split_go rest (some c) st.1 st.2 [] (parts ++ [String.mk current])
    else
      split_go rest (some c) st.1 st.2 (current ++ [c]) parts

/-- ParameterParser._split_parameters on a string. -/
def split_parameters (s : String) : List String :=
  split_go s.toList Option.none false Option.none [] []

/-- ASCII approximation of the regex word class backslash-w. -/
def is_word_char (c : Char) : Bool :=
  c.isAlphanum || c = '_'

/-- The regex match of a key=value segment: an optional at-sign, a nonempty
word run, optional whitespace, an equals sign, optional whitespace, then a
nonempty remainder not crossing a newline (with at most one trailing
newline absorbed by the end anchor). -/
def kv_match (part : String) : Option (String × String) :=
  let cs := part.toList
  let has_at := cs.head? = some '@'
  let cs1 := if has_at then cs.drop 1 else cs
  let word := cs1.takeWhile is_word_char
  if word.isEmpty then Option.none
  else
    match (cs1.drop word.length).dropWhile Char.isWhitespace with
    | '=' :: rest3 =>
      let rest4 := rest3.dropWhile Char.isWhitespace
      let g2 := rest4.takeWhile (fun c => c ≠ '\n')
      let tail := rest4.drop g2.length
      if !g2.isEmpty && (tail = [] || tail = ['\n']) then
        some (String.mk ((if has_at then ['@'] else []) ++ word), String.mk g2)
      else Option.none
    | _ => Option.none

/-- Exact match of the date pattern: four digits, dash, two digits, dash,
two digits, anchored at both ends. -/
def matches_date (cs : List Char) : Bool :=
  match cs with
  | [a, b, c, d, '-', e, f, '-', g, h] =>
    [a, b, c, d, e, f, g, h].all Char.isDigit
  | _ => false

/-- Exact match of the datetime pattern: the date pattern, one or more
whitespace characters, then two digits, colon, two digits, colon, two
digits. -/
def matches_datetime (cs : List Char) : Bool :=
  match cs with
  | a :: b :: c :: d :: '-' :: e :: f :: '-' :: g :: h :: rest =>
    [a, b, c, d, e, f, g, h].all Char.isDigit &&
      (let ws := rest.takeWhile Char.isWhitespace
       !ws.isEmpty &&
         (match rest.drop ws.length with
          | [i, j, ':', k, l, ':', m, n] => [i, j, k, l, m, n].all Char.isDigit
          | _ => false))
  | _ => false

/-- Exact match of the integer pattern: an optional leading minus and one or
more digits. -/
def matches_int (cs : List Char) : Bool :=
  match cs with
  | '-' :: t => !t.isEmpty && t.all Char.isDigit
  | t => !t.isEmpty && t.all Char.isDigit

/-- Exact match of the float pattern: optional minus, digits, dot, digits. -/
def matches_float (cs : List Char) : Bool :=
  let t := match cs with | '-' :: t => t | t => t
  let d1 := t.takeWhile Char.isDigit
  !d1.isEmpty &&
    (match t.drop d1.length with
     | '.' :: d2 => !d2.isEmpty && d2.all Char.isDigit
     | _ => false)

/-- Decimal digits to a natural number. -/
def digits_to_nat : List Char → Nat → Nat
  | [], acc => acc
  | c :: t, acc => digits_to_nat t (acc * 10 + (c.toNat - '0'.toNat))

/-- Python int() on a string already known to match the integer pattern. -/
def parse_int_lit (cs : List Char) : Int :=
  match cs with
  | '-' :: t => -(digits_to_nat t 0 : Int)
  | t => (digits_to_nat t 0 : Int)

/-- ParameterParser._infer_value_and_type, with the checks applied in source
order: NULL keyword, N-prefixed quoted string, quoted string, datetime
pattern, date pattern, integer pattern, float pattern, raw string
fallback.  Quote stripping mirrors the Python slices (value[2:-1] and
value[1:-1]). -/
def infer_value_and_type (value_str : String) : PValue × String :=
  let v := py_strip value_str
  let cs := v.toList
  if py_upper v == "NULL" then (PValue.null, "varchar")
  else if ['N', squote].isPrefixOf cs ∧ cs.getLast? = some squote then
    (PValue.str (String.mk ((cs.drop 2).dropLast)), "nvarchar")
  else if (cs.head? = some squote ∧ cs.getLast? = some squote) ∨
      (cs.head? = some '"' ∧ cs.getLast? = some '"') then
    (PValue.str (String.mk ((cs.drop 1).dropLast)), "varchar")
  else if matches_datetime cs then (PValue.str v, "datetime")
  else if matches_date cs then (PValue.str v, "date")
  else if matches_int cs then (PValue.int (parse_int_lit cs), "int")
  else if matches_float cs then (PValue.float v, "float")
  else (PValue.str v, "varchar")

/-- The per-segment step of ParameterParser._parse_key_value_format: empty
segments and segments that do not match the key=value shape are silently
skipped, a missing at-sign is prepended to the stored name, and the value
text is stripped before inference. -/
def parse_kv_part (part : String) : Option TestParameter :=
  let p := py_strip part
  if p == "" then Option.none
  else
    match kv_match p with
    | Option.none => Option.none
    | some (name, value_str) =>
      let name := if name.toList.head? = some '@' then name else "@" ++ name
      let vt := infer_value_and_type (py_strip value_str)
      some { name := name, value := vt.1, data_type := vt.2 }

/-- ParameterParser._parse_key_value_format. -/
def parse_key_value_format (s : String) : List TestParameter :=
  (split_parameters s).filterMap parse_kv_part

/-- The EXEC-stripping substitution of parse_parameters: when the string
starts with the EXEC keyword (case-insensitively), remove the keyword, the
following whitespace, the procedure name and any whitespace after it; if
the pattern does not match, the string is left unchanged. -/
def strip_exec (s : String) : String :=
  if !(py_startswith (py_upper s) "EXEC") then s
  else
    let cs := s.toList.drop 4
    let ws := cs.takeWhile Char.isWhitespace
    if ws.isEmpty then s
    else
      let cs2 := cs.drop ws.length
      let proc := cs2.takeWhile (fun c => !c.isWhitespace)
      if proc.isEmpty then s
      else String.mk ((cs2.drop proc.length).dropWhile Char.isWhitespace)

/-- ParameterParser.parse_parameters.  The JSON branch (input bracketed by
square brackets) delegates to the json library and is outside this model,
signaled by Option.none; every claim exercises the key=value and EXEC
forms only. -/
def parse_parameters (s : String) : Option (List TestParameter) :=
  let t := py_strip s
  if t == "" then some []
  else if py_startswith t "[" ∧ py_endswith t "]" then Option.none
  else some (parse_key_value_format (strip_exec t))

/-- The per-parameter fragment of parameters_to_exec_string: None becomes
the NULL keyword, string-typed values are single-quoted with embedded
quotes doubled, and every other value is rendered with str(). -/
def param_to_exec_fragment (p : TestParameter) : String :=
  if p.value = PValue.null then p.name ++ "=NULL"
  else if ["varchar", "nvarchar", "char", "nchar", "text", "ntext"].contains p.data_type then
    p.name ++ "=" ++ squote_s ++
      String.mk ((py_str p.value).toList.flatMap (fun c => if c = squote then [squote, squote] else [c])) ++
      squote_s
  else p.name ++ "=" ++ py_str p.value

/-- ParameterParser.parameters_to_exec_string. -/
def parameters_to_exec_string (sp_name : String) (parameters : List TestParameter) : String :=
  if parameters.isEmpty then "EXEC " ++ sp_name
  else "EXEC " ++ sp_name ++ " " ++ String.intercalate ", " (parameters.map param_to_exec_fragment)

/-! ## Test executor (src/core/executor.py)

Database connectivity, cache clearing and the retry loop are collaborator
effects: a procedure invocation is modeled by its final outcome (the result
sets of a successful call, or the exception that exhausted the retries).
The random.choice draw and the three observations of the cancellation flag
inside one test are inputs of the environment.  execute_test additionally
returns the trace of procedure invocations (name and parameter mapping, in
invocation order) so that ordering claims are expressible. -/

/-- A Python exception as seen by the error formatter: the type name and the
str() of the exception. -/
structure PyExc where
  type_name : String
  msg : String
  deriving DecidableEq, Repr

/-- The outcome of one procedure invocation (after retries). -/
inductive ProcOutcome where
  | ok (results : List ResultSet)
  | err (e : PyExc)
  deriving DecidableEq, Repr

/-- The TestCase dataclass (the id and the created/updated timestamps play
no role in execution and are not modeled). -/
structure TestCase where
  original_sp_name : String
  tuned_sp_name : String
  parameters : List TestParameter := []
  description : String := ""
  deriving DecidableEq, Repr

/-- A default test case (used only as the getD fallback when stating batch
properties by index). -/
def dummy_test_case : TestCase :=
  { original_sp_name := "", tuned_sp_name := "" }

/-- The environment of one execute_test call: the random order draw, the two
invocation outcomes, and the value of the shared cancellation flag at each
of its three observation points. -/
structure TestEnv where
  coin : Bool
  original_outcome : ProcOutcome
  tuned_outcome : ProcOutcome
  cancelled_at_start : Bool := false
  cancelled_after_original : Bool := false
  cancelled_after_tuned : Bool := false
  deriving DecidableEq, Repr

/-- The TestExecutionResult dataclass (wall-clock timing figures and the
start/end timestamps are real-time measurements and are not modeled).  The
field defaults mirror the dataclass defaults; in particular execution_order
defaults to original_first. -/
structure TestExecutionResult where
  test_case : TestCase
  success : Bool
  comparison_result : Option ComparisonResult := Option.none
  original_results : Option (List ResultSet) := Option.none
  tuned_results : Option (List ResultSet) := Option.none
  execution_order : String := "original_first"
  error_message : Option String := Option.none
  deriving DecidableEq, Repr

/-- Python str.lstrip with the at-sign as the character set. -/
def strip_at_marks (s : String) : String :=
  String.mk (s.toList.dropWhile (fun c => c = '@'))

/-- The parameter mapping built at the start of execute_test (raw values
keyed by the name with leading at-signs stripped; name uniqueness is
enforced by TestCase validation, so the association list faithfully stands
for the Python dict). -/
def build_params (tc : TestCase) : List (String × PValue) :=
  tc.parameters.map (fun p => (strip_at_marks p.name, p.value))

/-- TestExecutor._format_error_message: pattern-match well-known failure
categories on the lowercased exception text, otherwise fall back to
type: message. -/
def format_error_message (command_timeout : Nat) (exc : PyExc) (tc : TestCase) : String :=
  let et := exc.type_name
  let em := exc.msg
  let lower := py_lower em
  if str_contains lower "timeout" then
    "타임아웃 오류: 프로시저 실행 시간이 " ++ toString command_timeout ++
      "초를 초과했습니다. (" ++ et ++ ": " ++ em ++ ")"
  else if str_contains lower "connection" then
    "연결 오류: 데이터베이스 연결에 문제가 발생했습니다. 네트워크나 서버 상태를 확인해주세요. (" ++
      et ++ ": " ++ em ++ ")"
  else if str_contains lower "login failed" then
    "인증 오류: 데이터베이스 로그인에 실패했습니다. 사용자 권한을 확인해주세요. (" ++
      et ++ ": " ++ em ++ ")"
  else if str_contains lower "invalid object name" then
    "프로시저 오류: " ++ squote_s ++ tc.original_sp_name ++ squote_s ++ " 또는 " ++
      squote_s ++ tc.tuned_sp_name ++ squote_s ++ " 프로시저를 찾을 수 없습니다. (" ++
      et ++ ": " ++ em ++ ")"
  else if str_contains lower "procedure or function" && str_contains lower "parameters" then
    "파라미터 오류: 프로시저 실행에 필요한 파라미터가 올바르지 않습니다. (" ++ et ++ ": " ++ em ++ ")"
  else et ++ ": " ++ em

/-- The result returned at each of the three cancellation exits of
execute_test: failed, with the cancellation message, and every other field
left at its dataclass default. -/
def cancelled_result (tc : TestCase) : TestExecutionResult :=
  { test_case := tc
    success := false
    error_message := some "테스트가 취소되었습니다." }

/-- TestExecutor.execute_test.  The source draws execute_original_first at
random (env.coin) and records it in execution_order, but the two invocation
blocks that follow are unconditional: the original procedure is always
invoked first and the tuned procedure second, which the returned trace
makes visible.  Cancellation is observed before the first invocation, after
the original invocation and after the tuned invocation.  Both procedures
failing is an overall failure with a combined message; exactly one failing
is a partial success whose failing side gets an empty result list and whose
error message names the failing side; both succeeding runs the comparator
over the two captured sequences. -/
def execute_test (command_timeout : Nat) (env : TestEnv) (tc : TestCase) :
    TestExecutionResult × List (String × List (String × PValue)) :=
  if env.cancelled_at_start then (cancelled_result tc, [])
  else
    let params := build_params tc
    let trace1 := [(tc.original_sp_name, params)]
    if env.cancelled_after_original then (cancelled_result tc, trace1)
    else
      let trace2 := trace1 ++ [(tc.tuned_sp_name, params)]
      if env.cancelled_after_tuned then (cancelled_result tc, trace2)
      else
        match env.original_outcome, env.tuned_outcome with
        | ProcOutcome.err oe, ProcOutcome.err te =>
          ({ test_case := tc
             success := false
             error_message := some ("원본 오류: " ++ format_error_message command_timeout oe tc ++
               "; 튜닝 오류: " ++ format_error_message command_timeout te tc) }, trace2)
        | ProcOutcome.err oe, ProcOutcome.ok trs =>
          ({ test_case := tc
             success := true
             original_results := some []
             tuned_results := some trs
             execution_order := if env.coin then "original_first" else "tuned_first"
             error_message := some ("원본 프로시저 실패: " ++
               format_error_message command_timeout oe tc) }, trace2)
        | ProcOutcome.ok ors, ProcOutcome.err te =>
          ({ test_case := tc
             success := true
             original_results := some ors
             tuned_results := some []
             execution_order := if env.coin then "original_first" else "tuned_first"
             error_message := some ("튜닝 프로시저 실패: " ++
               format_error_message command_timeout te tc) }, trace2)
        | ProcOutcome.ok ors, ProcOutcome.ok trs =>
          ({ test_case := tc
             success := true
             comparison_result := some (compare_results default_comparator ors trs)
             original_results := some ors
             tuned_results := some trs
             execution_order := if env.coin then "original_first" else "tuned_first" }, trace2)

/-! ## Batch execution (TestExecutor.execute_multiple_tests)

The loop reads the shared cancellation flag once at the top of each
iteration and once more before the final progress callback; reads are
numbered in order, and the flag value at read number i is cancel i (the
real flag is only ever set, hence the monotonicity hypothesis of the batch
theorem).  The progress callback is modeled by progress events and the
start of a test case by a run event. -/

/-- An observable event of the batch loop. -/
inductive BatchEvent where
  | progress (current total : Nat)
  | run (index : Nat)
  deriving DecidableEq, Repr

/-- The loop body of execute_multiple_tests, carrying the index of the next
cancellation-flag read; returns the collected results, the emitted events
and the read index after the loop. -/
def execute_multiple_tests_loop (command_timeout : Nat) (cancel : Nat → Bool)
    (envs : Nat → TestEnv) (total : Nat) :
    List TestCase → Nat → List TestExecutionResult × List BatchEvent × Nat
  | [], i => ([], [], i)
  | tc :: rest, i =>
    if cancel i then ([], [], i + 1)
    else
      let r := (execute_test command_timeout (envs i) tc).1
      let rec_out := execute_multiple_tests_loop command_timeout cancel envs total rest (i + 1)
      (r :: rec_out.1,
       BatchEvent.progress i total :: BatchEvent.run i :: rec_out.2.1,
       rec_out.2.2)

/-- TestExecutor.execute_multiple_tests: run the loop from read index 0,
then emit the final 100-percent progress callback only when the flag is
still clear at the final read. -/
def execute_multiple_tests (command_timeout : Nat) (cancel : Nat → Bool)
    (envs : Nat → TestEnv) (test_cases : List TestCase) :
    List TestExecutionResult × List BatchEvent :=
  let total := test_cases.length
  let out := execute_multiple_tests_loop command_timeout cancel envs total test_cases 0
  (out.1, out.2.1 ++ (if cancel out.2.2 then [] else [BatchEvent.progress total total]))

/-- The number of leading loop reads, starting at read index i with n test
cases remaining, that observe the cancellation flag clear — that is, the
number of test cases that start. -/
def started_count (cancel : Nat → Bool) (i n : Nat) : Nat :=
  match n with
  | 0 => 0
  | m + 1 => if cancel i then 0 else started_count cancel (i + 1) m + 1

/-- The read index of the final cancellation check of a batch run. -/
def batch_final_read (cancel : Nat → Bool) (test_cases : List TestCase) : Nat :=
  let k := started_count cancel 0 test_cases.length
  if k < test_cases.length then k + 1 else k

/-! ## Derived forms and helper lemmas -/

/-- The list of per-result-set outcomes built by the loop of
compare_results. -/
def per_sets (cfg : Comparator) (original_results tuned_results : List ResultSet) :
    List SingleSetComparison :=
  ((original_results.zip tuned_results).enum).map
    (fun p => compare_single_result_set cfg p.2.1 p.2.2 p.1)

/-- A difference category produced by the data-comparison phase. -/
def data_phase_category (c : DiffCategory) : Prop :=
  c = DiffCategory.row_count ∨ c = DiffCategory.data_difference ∨
    c = DiffCategory.data_comparison_error

/-! ## Concrete instances used by individual claims -/

/-- One result set of one row, one column. -/
def c3_orig : List ResultSet := [{ columns := ["a"], data := [[Value.int 1]] }]

/-- The same column structure with zero rows. -/
def c3_tuned : List ResultSet := [{ columns := ["a"], data := [] }]

/-- One result set whose single row matches its single column. -/
def c6_orig : List ResultSet := [{ columns := ["a"], data := [[Value.int 1]] }]

/-- One result set whose single row is wider than the declared column list,
so its DataFrame conversion raises. -/
def c6_tuned : List ResultSet := [{ columns := ["a"], data := [[Value.int 1, Value.int 2]] }]

/-- An environment whose random draw chose tuned-first and whose two
invocations both succeed with no result sets and no cancellation. -/
def c2_env : TestEnv :=
  { coin := false, original_outcome := ProcOutcome.ok [], tuned_outcome := ProcOutcome.ok [] }

/-- The same environment with the random draw choosing original-first. -/
def c2_env_heads : TestEnv :=
  { coin := true, original_outcome := ProcOutcome.ok [], tuned_outcome := ProcOutcome.ok [] }

/-- A test case with distinct procedure names and no parameters. -/
def c2_case : TestCase :=
  { original_sp_name := "dbo.sp_orig", tuned_sp_name := "dbo.sp_tuned" }

/-- An environment in which the original invocation fails and the tuned one
succeeds with a single one-row result set. -/
def c7_env : TestEnv :=
  { coin := true
    original_outcome := ProcOutcome.err { type_name := "RuntimeError", msg := "boom" }
    tuned_outcome := ProcOutcome.ok [{ columns := ["a"], data := [[Value.int 1]] }] }

/-- A test case for the partial-failure scenario. -/
def c7_case : TestCase :=
  { original_sp_name := "dbo.sp_a", tuned_sp_name := "dbo.sp_b" }

/-- The round-trip input of the parameter-parsing claim:
at-Id=5, at-Name=(quoted Bob), at-Start=(quoted 2024-01-01). -/
def c8_input : String :=
  "@Id=5, @Name=" ++ squote_s ++ "Bob" ++ squote_s ++
    ", @Start=" ++ squote_s ++ "2024-01-01" ++ squote_s

/-- The parameter list the parser produces for c8_input. -/
def c8_parsed : List TestParameter :=
  [{ name := "@Id", value := PValue.int 5, data_type := "int" },
   { name := "@Name", value := PValue.str "Bob", data_type := "varchar" },
   { name := "@Start", value := PValue.str "2024-01-01", data_type := "varchar" }]

/-- A cancellation-flag history that becomes set from read number 2 on. -/
def c9_cancel : Nat → Bool := fun i => decide (2 ≤ i)

/-- A benign per-test environment (both sides succeed with no result
sets). -/
def c9_env : TestEnv :=
  { coin := true, original_outcome := ProcOutcome.ok [], tuned_outcome := ProcOutcome.ok [] }

/-- The same environment for every batch position. -/
def c9_envs : Nat → TestEnv := fun _ => c9_env

/-- A test case for the batch scenario. -/
def c9_case : TestCase :=
  { original_sp_name := "dbo.sp_one", tuned_sp_name := "dbo.sp_two" }

/-- A batch of three test cases. -/
def c9_cases : List TestCase := [c9_case, c9_case, c9_case]

/-- A raw result set with one column and one row. -/
def c10_set : RawResultSet := { description := some ["a"], rows := [[Value.int 1]] }

/-- A raw result set with column metadata but no rows. -/
def c10_empty : RawResultSet := { description := some ["a"], rows := [] }

lemma single_fields (cfg : Comparator) (o t : ResultSet) (i : Nat) :
    compare_single_result_set cfg o t i =
      if compare_columns cfg o.columns t.columns then
        { differences := compare_data o.data t.data o.columns i
          column_structure_match := true
          data_match := (compare_data o.data t.data o.columns i).isEmpty }
      else
        { differences := [Difference.column_structure i o.columns t.columns]
          column_structure_match := false
          data_match := true } := by
  by_cases h : compare_columns cfg o.columns t.columns <;>
    simp [compare_single_result_set, h]

lemma foldl_aggregate_fst (per : List SingleSetComparison) :
    ∀ acc : List Difference × Bool × Bool,
      (per.foldl aggregate_step acc).1 = acc.1 ++ (per.map SingleSetComparison.differences).flatten := by
  induction per with
  | nil => intro acc; simp
  | cons r rest ih =>
    intro acc
    by_cases h : r.differences.isEmpty
    · have hnil : r.differences = [] := List.isEmpty_iff.mp h
      simp [List.foldl_cons, aggregate_step, h, ih, hnil]
    · simp [List.foldl_cons, aggregate_step, h, ih, List.append_assoc]

lemma foldl_aggregate_csm (per : List SingleSetComparison) :
    ∀ acc : List Difference × Bool × Bool,
      (per.foldl aggregate_step acc).2.1 =
        (acc.2.1 && per.all (fun r => r.differences.isEmpty || r.column_structure_match)) := by
  induction per with
  | nil => intro acc; simp
  | cons r rest ih =>
    intro acc
    by_cases h : r.differences.isEmpty
    · simp [List.foldl_cons, aggregate_step, h, ih]
    · simp [List.foldl_cons, aggregate_step, h, ih, Bool.and_assoc]

lemma foldl_aggregate_dm (per : List SingleSetComparison) :
    ∀ acc : List Difference × Bool × Bool,
      (per.foldl aggregate_step acc).2.2 =
        (acc.2.2 && per.all (fun r => r.differences.isEmpty || r.data_match)) := by
  induction per with
  | nil => intro acc; simp
  | cons r rest ih =>
    intro acc
    by_cases h : r.differences.isEmpty
    · simp [List.foldl_cons, aggregate_step, h, ih]
    · simp [List.foldl_cons, aggregate_step, h, ih, Bool.and_assoc]

lemma compare_results_spec (cfg : Comparator) (orig tuned : List ResultSet)
    (h : orig.length = tuned.length) :
    compare_results cfg orig tuned =
      { is_equal := ((per_sets cfg orig tuned).map SingleSetComparison.differences).flatten.isEmpty
        differences := ((per_sets cfg orig tuned).map SingleSetComparison.differences).flatten
        result_set_count_match := true
        column_structure_match :=
          (per_sets cfg orig tuned).all (fun r => r.differences.isEmpty || r.column_structure_match)
        data_match :=
          (per_sets cfg orig tuned).all (fun r => r.differences.isEmpty || r.data_match)
        error_message := Option.none } := by
  have hne : ¬ orig.length ≠ tuned.length := by simp [h]
  simp only [compare_results, if_neg hne, per_sets]
  rw [foldl_aggregate_fst, foldl_aggregate_csm, foldl_aggregate_dm]
  simp

lemma detailed_category (od td : List (List Value)) (cols : List String) (i : Nat) :
    ∀ d ∈ detailed_data_comparison od td cols i,
      d.category = DiffCategory.data_difference := by
  intro d hd
  simp only [detailed_data_comparison, List.mem_flatMap] at hd
  obtain ⟨name, _, hmem⟩ := hd
  by_cases h : (((column_values od (cols.indexOf name)).zip
      (column_values td (cols.indexOf name))).enum.filter
      (fun p => !(values_equal p.2.1 p.2.2))).map (fun p => p.1) |>.isEmpty
  · simp [h] at hmem
  · simp only [h, if_neg, Bool.not_eq_true, List.mem_singleton, if_false] at hmem
    subst hmem
    rfl

lemma compare_data_category (od td : List (List Value)) (cols : List String) (i : Nat) :
    ∀ d ∈ compare_data od td cols i, data_phase_category d.category := by
  intro d hd
  unfold compare_data at hd
  split at hd
  · simp at hd
    subst hd
    exact Or.inl rfl
  · split at hd
    · simp at hd
      subst hd
      exact Or.inr (Or.inr rfl)
    · split at hd
      · simp at hd
        subst hd
        exact Or.inr (Or.inr rfl)
      · exact Or.inr (Or.inl (detailed_category od td cols i d hd))

lemma single_csm_iff (cfg : Comparator) (o t : ResultSet) (i : Nat) :
    (compare_single_result_set cfg o t i).column_structure_match = false ↔
      ∃ d ∈ (compare_single_result_set cfg o t i).differences,
        d.category = DiffCategory.column_structure := by
  rw [single_fields]
  by_cases h : compare_columns cfg o.columns t.columns
  · simp only [if_pos h]
    constructor
    · intro hfalse; cases hfalse
    · rintro ⟨d, hd, hcat⟩
      have := compare_data_category o.data t.data o.columns i d hd
      rw [hcat] at this
      rcases this with h1 | h1 | h1 <;> cases h1
  · simp only [if_neg h]
    constructor
    · intro _
      exact ⟨Difference.column_structure i o.columns t.columns, List.mem_singleton_self _, rfl⟩
    · intro _; trivial

lemma single_dm_iff (cfg : Comparator) (o t : ResultSet) (i : Nat) :
    (compare_single_result_set cfg o t i).data_match = false ↔
      ∃ d ∈ (compare_single_result_set cfg o t i).differences,
        data_phase_category d.category := by
  rw [single_fields]
  by_cases h : compare_columns cfg o.columns t.columns
  · simp only [if_pos h]
    constructor
    · intro hfalse
      have hne : compare_data o.data t.data o.columns i ≠ [] := by
        intro hnil
        rw [hnil] at hfalse
        cases hfalse
      obtain ⟨d, hd⟩ := List.exists_mem_of_ne_nil _ hne
      exact ⟨d, hd, compare_data_category o.data t.data o.columns i d hd⟩
    · rintro ⟨d, hd, _⟩
      have hne : compare_data o.data t.data o.columns i ≠ [] := by
        intro hnil
        rw [hnil] at hd
        cases hd
      simpa [List.isEmpty_eq_false] using hne
  · simp only [if_neg h]
    constructor
    · intro hfalse; cases hfalse
    · rintro ⟨d, hd, hcat⟩
      simp at hd
      subst hd
      rcases hcat with h1 | h1 | h1 <;> cases h1

lemma agg_csm_iff (cfg : Comparator) (orig tuned : List ResultSet) :
    ((per_sets cfg orig tuned).all
        (fun r => r.differences.isEmpty || r.column_structure_match) = false) ↔
      ∃ d ∈ ((per_sets cfg orig tuned).map SingleSetComparison.differences).flatten,
        d.category = DiffCategory.column_structure := by
  constructor
  · intro hall
    obtain ⟨r, hr, hprop⟩ := List.all_eq_false.mp hall
    rw [Bool.not_eq_true, Bool.or_eq_false_iff] at hprop
    obtain ⟨p, hp, rfl⟩ := List.mem_map.mp (show r ∈ _ from by simpa only [per_sets] using hr)
    obtain ⟨d, hd, hcat⟩ := (single_csm_iff cfg p.2.1 p.2.2 p.1).mp hprop.2
    exact ⟨d, List.mem_flatten.mpr ⟨_, List.mem_map_of_mem _ hr, hd⟩, hcat⟩
  · rintro ⟨d, hd, hcat⟩
    obtain ⟨l, hl, hdl⟩ := List.mem_flatten.mp hd
    obtain ⟨r, hr, rfl⟩ := List.mem_map.mp hl
    obtain ⟨p, hp, rfl⟩ := List.mem_map.mp (show r ∈ _ from by simpa only [per_sets] using hr)
    rw [List.all_eq_false]
    refine ⟨_, hr, ?_⟩
    rw [Bool.not_eq_true, Bool.or_eq_false_iff]
    exact ⟨List.isEmpty_eq_false.mpr (List.ne_nil_of_mem hdl),
      (single_csm_iff cfg p.2.1 p.2.2 p.1).mpr ⟨d, hdl, hcat⟩⟩

lemma agg_dm_iff (cfg : Comparator) (orig tuned : List ResultSet) :
    ((per_sets cfg orig tuned).all
        (fun r => r.differences.isEmpty || r.data_match) = false) ↔
      ∃ d ∈ ((per_sets cfg orig tuned).map SingleSetComparison.differences).flatten,
        data_phase_category d.category := by
  constructor
  · intro hall
    obtain ⟨r, hr, hprop⟩ := List.all_eq_false.mp hall
    rw [Bool.not_eq_true, Bool.or_eq_false_iff] at hprop
    obtain ⟨p, hp, rfl⟩ := List.mem_map.mp (show r ∈ _ from by simpa only [per_sets] using hr)
    obtain ⟨d, hd, hcat⟩ := (single_dm_iff cfg p.2.1 p.2.2 p.1).mp hprop.2
    exact ⟨d, List.mem_flatten.mpr ⟨_, List.mem_map_of_mem _ hr, hd⟩, hcat⟩
  · rintro ⟨d, hd, hcat⟩
    obtain ⟨l, hl, hdl⟩ := List.mem_flatten.mp hd
    obtain ⟨r, hr, rfl⟩ := List.mem_map.mp hl
    obtain ⟨p, hp, rfl⟩ := List.mem_map.mp (show r ∈ _ from by simpa only [per_sets] using hr)
    rw [List.all_eq_false]
    refine ⟨_, hr, ?_⟩
    rw [Bool.not_eq_true, Bool.or_eq_false_iff]
    exact ⟨List.isEmpty_eq_false.mpr (List.ne_nil_of_mem hdl),
      (single_dm_iff cfg p.2.1 p.2.2 p.1).mpr ⟨d, hdl, hcat⟩⟩

/-! ## Claim theorems -/

/-- Claim C1 (counterexample): the claim states that a language-null on one
side and an empty string on the other are judged equal; _values_equal
returns false on exactly that pair, because the one-sided None/NaN check
precedes normalization. -/
theorem null_vs_empty_string_cells_differ :
    values_equal Value.none (Value.str "") = false := rfl

/-- Claim C1 (amended): if both cells are None/NaN they are equal; if
exactly one cell is None/NaN they differ — even when the other cell is an
empty or all-whitespace string; when neither cell is None/NaN the
normalized values are compared, so empty and all-whitespace strings are
mutually equal. -/
theorem null_aware_equality_behavior :
    (∀ v1 v2 : Value,
      (isna v1 = true → isna v2 = true → values_equal v1 v2 = true) ∧
      (isna v1 ≠ isna v2 → values_equal v1 v2 = false) ∧
      (isna v1 = false → isna v2 = false →
        values_equal v1 v2 = py_eq (normalize_value v1) (normalize_value v2))) ∧
    (∀ s t : String, py_strip s = "" → py_strip t = "" →
      values_equal (Value.str s) (Value.str t) = true) := by
  constructor
  · intro v1 v2
    refine ⟨?_, ?_, ?_⟩
    · intro h1 h2
      simp [values_equal, h1, h2]
    · intro hne
      cases h1 : isna v1 <;> cases h2 : isna v2 <;>
        simp_all [values_equal]
    · intro h1 h2
      simp [values_equal, h1, h2]
  · intro s t hs ht
    simp [values_equal, isna, normalize_value, hs, ht, py_eq]

/-- Claim C1 witness: whitespace-only versus empty string is equal, NaN
versus None is equal, and None versus a non-null value differs. -/
theorem null_aware_equality_behavior_witness :
    values_equal (Value.str " ") (Value.str "") = true ∧
    values_equal Value.nan Value.none = true ∧
    values_equal Value.none (Value.int 3) = false :=
  ⟨null_aware_equality_behavior.2 " " "" rfl rfl,
   (null_aware_equality_behavior.1 Value.nan Value.none).1 rfl rfl,
   (null_aware_equality_behavior.1 Value.none (Value.int 3)).2.1 (by simp [isna])⟩

/-- Claim C5 (confirmed): when the two sequences have different lengths,
compare_results returns immediately with exactly one difference, of
category result_set_count, all flags false and is_equal false — no
per-result-set comparison contributes to the output. -/
theorem count_mismatch_short_circuits (cfg : Comparator) (orig tuned : List ResultSet)
    (h : orig.length ≠ tuned.length) :
    compare_results cfg orig tuned =
      { is_equal := false
        differences := [Difference.result_set_count orig.length tuned.length]
        result_set_count_match := false
        column_structure_match := false
        data_match := false
        error_message := Option.none } := by
  simp [compare_results, h]

/-- Claim C5 witness: a 0-versus-1 result-set count mismatch. -/
theorem count_mismatch_short_circuits_witness :
    compare_results default_comparator [] [{ columns := ["a"], data := [] }] =
      { is_equal := false
        differences := [Difference.result_set_count 0 1]
        result_set_count_match := false
        column_structure_match := false
        data_match := false
        error_message := Option.none } :=
  count_mismatch_short_circuits default_comparator [] [{ columns := ["a"], data := [] }]
    (by decide)

/-- Claim C4 (confirmed): a ComparisonResult with is_equal true has an empty
differences list and all three match flags true. -/
theorem is_equal_implies_clean_result (cfg : Comparator) (orig tuned : List ResultSet)
    (h : (compare_results cfg orig tuned).is_equal = true) :
    (compare_results cfg orig tuned).differences = [] ∧
    (compare_results cfg orig tuned).result_set_count_match = true ∧
    (compare_results cfg orig tuned).column_structure_match = true ∧
    (compare_results cfg orig tuned).data_match = true := by
  by_cases hlen : orig.length = tuned.length
  · rw [compare_results_spec cfg orig tuned hlen] at h ⊢
    have hnil : ((per_sets cfg orig tuned).map SingleSetComparison.differences).flatten = [] :=
      List.isEmpty_iff.mp h
    have hall : ∀ r ∈ per_sets cfg orig tuned, r.differences = [] := by
      intro r hr
      exact List.flatten_eq_nil_iff.mp hnil _ (List.mem_map_of_mem _ hr)
    refine ⟨hnil, rfl, ?_, ?_⟩ <;>
    · rw [List.all_eq_true]
      intro r hr
      simp [hall r hr]
  · have hfalse : (compare_results cfg orig tuned).is_equal = false := by
      simp [compare_results, hlen]
    rw [hfalse] at h
    cases h

/-- Claim C4 witness: two empty sequences compare equal with a clean
result. -/
theorem is_equal_implies_clean_result_witness :
    (compare_results default_comparator [] []).differences = [] ∧
    (compare_results default_comparator [] []).result_set_count_match = true ∧
    (compare_results default_comparator [] []).column_structure_match = true ∧
    (compare_results default_comparator [] []).data_match = true :=
  is_equal_implies_clean_result default_comparator [] [] rfl

/-- Claim C3 (counterexample): the claim states that a row_count difference
leaves data_match true; comparing a one-row result set against a zero-row
result set emits only a row_count difference and clears data_match. -/
theorem row_count_difference_clears_data_match :
    compare_results default_comparator c3_orig c3_tuned =
      { is_equal := false
        differences := [Difference.row_count 0 1 0]
        result_set_count_match := true
        column_structure_match := true
        data_match := false
        error_message := Option.none } := rfl

/-- Claim C3 (amended): when the result-set counts match,
column_structure_match is false iff some emitted difference has category
column_structure, and data_match is false iff some emitted difference comes
from the data-comparison phase — category row_count, data_difference or
data_comparison_error; when the counts differ, both flags are false with
only the result_set_count difference emitted. -/
theorem match_flags_vs_categories (cfg : Comparator) (orig tuned : List ResultSet) :
    (orig.length = tuned.length →
      ((compare_results cfg orig tuned).column_structure_match = false ↔
        ∃ d ∈ (compare_results cfg orig tuned).differences,
          d.category = DiffCategory.column_structure) ∧
      ((compare_results cfg orig tuned).data_match = false ↔
        ∃ d ∈ (compare_results cfg orig tuned).differences,
          data_phase_category d.category)) ∧
    (orig.length ≠ tuned.length →
      (compare_results cfg orig tuned).column_structure_match = false ∧
      (compare_results cfg orig tuned).data_match = false) := by
  constructor
  · intro hlen
    rw [compare_results_spec cfg orig tuned hlen]
    exact ⟨agg_csm_iff cfg orig tuned, agg_dm_iff cfg orig tuned⟩
  · intro hlen
    simp [compare_results, hlen]

/-- Claim C3 witness: the flag/category correspondence evaluated on the
row-count mismatch instance. -/
theorem match_flags_vs_categories_witness :
    ((compare_results default_comparator c3_orig c3_tuned).column_structure_match = false ↔
      ∃ d ∈ (compare_results default_comparator c3_orig c3_tuned).differences,
        d.category = DiffCategory.column_structure) ∧
    ((compare_results default_comparator c3_orig c3_tuned).data_match = false ↔
      ∃ d ∈ (compare_results default_comparator c3_orig c3_tuned).differences,
        data_phase_category d.category) :=
  (match_flags_vs_categories default_comparator c3_orig c3_tuned).1 rfl

/-- Claim C6 (counterexample): the claim states that any exception raised
inside the comparison yields a result with all three match flags false and
error_message set; a DataFrame-conversion exception (row wider than the
column list) is caught inside _compare_data instead, leaving error_message
unset and column_structure_match true. -/
theorem inner_exception_keeps_error_message_unset :
    df_raises [[Value.int 1, Value.int 2]] ["a"] = true ∧
    (compare_results default_comparator c6_orig c6_tuned).error_message = Option.none ∧
    (compare_results default_comparator c6_orig c6_tuned).column_structure_match = true ∧
    (compare_results default_comparator c6_orig c6_tuned).is_equal = false :=
  ⟨rfl, rfl, rfl, rfl⟩

/-- Claim C6 (amended): compare_results never propagates an exception — the
embedding is total and its error_message is always unset on the modeled
inputs, because the only reachable exception source (DataFrame conversion)
is caught inside _compare_data and converted into a data_comparison_error
difference; whenever such an exception occurs for some zipped pair with
matching columns and row counts, the overall result is unequal and carries
a data_comparison_error difference, not the all-flags-false error shape. -/
theorem no_exception_escapes_comparison :
    (∀ (cfg : Comparator) (orig tuned : List ResultSet),
      (compare_results cfg orig tuned).error_message = Option.none) ∧
    (∀ (cfg : Comparator) (orig tuned : List ResultSet) (i : Nat) (o t : ResultSet),
      orig.length = tuned.length →
      (i, (o, t)) ∈ (orig.zip tuned).enum →
      compare_columns cfg o.columns t.columns = true →
      o.data.length = t.data.length →
      (df_raises o.data o.columns = true ∨ df_raises t.data o.columns = true) →
      (compare_results cfg orig tuned).is_equal = false ∧
      ∃ d ∈ (compare_results cfg orig tuned).differences,
        d.category = DiffCategory.data_comparison_error) := by
  constructor
  · intro cfg orig tuned
    by_cases hlen : orig.length = tuned.length
    · rw [compare_results_spec cfg orig tuned hlen]
    · simp [compare_results, hlen]
  · intro cfg orig tuned i o t hlen hmem hcols hrows hdf
    have hd : ∃ e, compare_data o.data t.data o.columns i =
        [Difference.data_comparison_error i e] := by
      unfold compare_data
      rw [if_neg (by simp [hrows])]
      rcases hdf with h1 | h1
      · rw [if_pos h1]
        exact ⟨_, rfl⟩
      · by_cases h2 : df_raises o.data o.columns
        · rw [if_pos h2]
          exact ⟨_, rfl⟩
        · rw [if_neg (by simp [h2]), if_pos h1]
          exact ⟨_, rfl⟩
    obtain ⟨e, he⟩ := hd
    have hdiffs : (compare_single_result_set cfg o t i).differences =
        [Difference.data_comparison_error i e] := by
      rw [single_fields]
      simp [hcols, he]
    have hsr : compare_single_result_set cfg o t i ∈ per_sets cfg orig tuned := by
      simp only [per_sets]
      exact List.mem_map.mpr ⟨(i, (o, t)), hmem, rfl⟩
    have hmemflat : Difference.data_comparison_error i e ∈
        ((per_sets cfg orig tuned).map SingleSetComparison.differences).flatten :=
      List.mem_flatten.mpr ⟨_, List.mem_map_of_mem _ hsr,
        by rw [hdiffs]; exact List.mem_singleton_self _⟩
    rw [compare_results_spec cfg orig tuned hlen]
    exact ⟨List.isEmpty_eq_false.mpr (List.ne_nil_of_mem hmemflat),
      ⟨_, hmemflat, rfl⟩⟩

/-- Claim C6 witness: the amended behavior evaluated on the instance whose
tuned side has a row wider than its column list. -/
theorem no_exception_escapes_comparison_witness :
    (compare_results default_comparator c6_orig c6_tuned).is_equal = false ∧
    ∃ d ∈ (compare_results default_comparator c6_orig c6_tuned).differences,
      d.category = DiffCategory.data_comparison_error :=
  no_exception_escapes_comparison.2 default_comparator c6_orig c6_tuned 0
    { columns := ["a"], data := [[Value.int 1]] }
    { columns := ["a"], data := [[Value.int 1, Value.int 2]] }
    rfl (by decide) rfl rfl (Or.inr rfl)

/-- Claim C2 (code bug): execute_test draws the execution order at random
and records it, but the two invocation blocks are unconditional — with the
draw choosing tuned-first the result records tuned_first while the trace
shows the original procedure invoked first, and with the draw choosing
original-first the trace is identical. -/
theorem order_recorded_but_not_followed :
    (execute_test 30 c2_env c2_case).1.execution_order = "tuned_first" ∧
    (execute_test 30 c2_env c2_case).2 =
      [("dbo.sp_orig", []), ("dbo.sp_tuned", [])] ∧
    (execute_test 30 c2_env_heads c2_case).1.execution_order = "original_first" ∧
    (execute_test 30 c2_env_heads c2_case).2 =
      [("dbo.sp_orig", []), ("dbo.sp_tuned", [])] :=
  ⟨rfl, rfl, rfl, rfl⟩

/-- Claim C7 (confirmed): when no cancellation is observed and exactly one
of the two invocations fails, execute_test returns a partial success:
success true, no ComparisonResult, the failing side recorded as an empty
result list, the surviving side kept, and an error message whose prefix
names the failing side. -/
theorem partial_failure_is_partial_success (ct : Nat) (env : TestEnv) (tc : TestCase)
    (h1 : env.cancelled_at_start = false) (h2 : env.cancelled_after_original = false)
    (h3 : env.cancelled_after_tuned = false) :
    (∀ e rs, env.original_outcome = ProcOutcome.err e →
      env.tuned_outcome = ProcOutcome.ok rs →
      (execute_test ct env tc).1 =
        { test_case := tc
          success := true
          comparison_result := Option.none
          original_results := some []
          tuned_results := some rs
          execution_order := if env.coin then "original_first" else "tuned_first"
          error_message := some ("원본 프로시저 실패: " ++ format_error_message ct e tc) }) ∧
    (∀ e rs, env.original_outcome = ProcOutcome.ok rs →
      env.tuned_outcome = ProcOutcome.err e →
      (execute_test ct env tc).1 =
        { test_case := tc
          success := true
          comparison_result := Option.none
          original_results := some rs
          tuned_results := some []
          execution_order := if env.coin then "original_first" else "tuned_first"
          error_message := some ("튜닝 프로시저 실패: " ++ format_error_message ct e tc) }) := by
  constructor <;> intro e rs ho ht <;> simp [execute_test, h1, h2, h3, ho, ht]

/-- Claim C7 witness: the failing-original scenario evaluated. -/
theorem partial_failure_is_partial_success_witness :
    (execute_test 30 c7_env c7_case).1 =
      { test_case := c7_case
        success := true
        comparison_result := Option.none
        original_results := some []
        tuned_results := some [{ columns := ["a"], data := [[Value.int 1]] }]
        execution_order := "original_first"
        error_message := some ("원본 프로시저 실패: " ++
          format_error_message 30 { type_name := "RuntimeError", msg := "boom" } c7_case) } :=
  (partial_failure_is_partial_success 30 c7_env c7_case rfl rfl rfl).1
    { type_name := "RuntimeError", msg := "boom" }
    [{ columns := ["a"], data := [[Value.int 1]] }] rfl rfl

/-- Claim C8 (counterexample): the claim states that the third parameter of
the round-trip input is inferred as date; the quoted-string check precedes
the date pattern, so a quoted date literal is inferred as varchar. -/
theorem quoted_date_parses_as_varchar :
    (parse_parameters c8_input).map (List.map TestParameter.data_type) =
      some ["int", "varchar", "varchar"] ∧
    (parse_parameters c8_input).map (List.map TestParameter.data_type) ≠
      some ["int", "varchar", "date"] ∧
    (parse_parameters c8_input).map (List.map TestParameter.data_type) ≠
      some ["int", "nvarchar", "date"] :=
  ⟨rfl, by decide, by decide⟩

/-- Claim C8 (amended): parsing the round-trip input yields three
parameters with values 5, Bob and 2024-01-01 and inferred types int,
varchar and varchar (the quoted date stays a varchar string);
re-serializing with parameters_to_exec_string and re-parsing yields the
identical parameter list. -/
theorem parameter_round_trip :
    parse_parameters c8_input = some c8_parsed ∧
    parameters_to_exec_string "sp_test" c8_parsed = "EXEC sp_test " ++ c8_input ∧
    parse_parameters (parameters_to_exec_string "sp_test" c8_parsed) = some c8_parsed :=
  ⟨rfl, rfl, rfl⟩

/-- Claim C10 (counterexample): the claim states that a side returning an
additional empty result set is reported as a result_set_count mismatch;
since the capture loop drops the empty set, both sides capture the same
sequence and the comparison reports full equality. -/
theorem extra_empty_result_set_is_invisible :
    capture_result_sets [c10_set, c10_empty] = capture_result_sets [c10_set] ∧
    compare_results default_comparator (capture_result_sets [c10_set, c10_empty])
        (capture_result_sets [c10_set]) =
      { is_equal := true
        differences := []
        result_set_count_match := true
        column_structure_match := true
        data_match := true
        error_message := Option.none } :=
  ⟨rfl, rfl⟩

/-- Claim C10 (amended): the capture loop omits every result set with no
rows or no column metadata; consequently one side returning zero rows where
the other returns some yields a result_set_count mismatch rather than a
row_count difference, while an additional empty result set on one side is
invisible after capture. -/
theorem capture_omits_empty_sets :
    (∀ raws : List RawResultSet,
      capture_result_sets raws =
        (raws.filter (fun r => !(raw_columns r).isEmpty && !r.rows.isEmpty)).map
          (fun r => { columns := raw_columns r, data := r.rows })) ∧
    (∀ (cols : List String) (rows : List (List Value)), cols ≠ [] → rows ≠ [] →
      compare_results default_comparator
          (capture_result_sets [{ description := some cols, rows := [] }])
          (capture_result_sets [{ description := some cols, rows := rows }]) =
        { is_equal := false
          differences := [Difference.result_set_count 0 1]
          result_set_count_match := false
          column_structure_match := false
          data_match := false
          error_message := Option.none }) ∧
    (∀ (raws : List RawResultSet) (extra : RawResultSet),
      ((raw_columns extra).isEmpty = true ∨ extra.rows.isEmpty = true) →
      capture_result_sets (raws ++ [extra]) = capture_result_sets raws) := by
  refine ⟨?_, ?_, ?_⟩
  · intro raws
    induction raws with
    | nil => rfl
    | cons r rest ih =>
      by_cases h : !(raw_columns r).isEmpty && !r.rows.isEmpty
      · simp [capture_result_sets, h, ih, List.filter_cons]
      · simp only [Bool.not_eq_true] at h
        simp [capture_result_sets, h, ih, List.filter_cons]
  · intro cols rows hc hr
    have h1 : capture_result_sets [{ description := some cols, rows := [] }] = [] := by
      simp [capture_result_sets]
    have h2 : capture_result_sets [{ description := some cols, rows := rows }] =
        [{ columns := cols, data := rows }] := by
      simp [capture_result_sets, raw_columns,
        List.isEmpty_eq_false.mpr hc, List.isEmpty_eq_false.mpr hr]
    rw [h1, h2]
    simp [compare_results]
  · intro raws extra h
    induction raws with
    | nil =>
      rcases h with h | h <;> simp [capture_result_sets, h]
    | cons r rest ih =>
      by_cases hcond : !(raw_columns r).isEmpty && !r.rows.isEmpty
      · simp [capture_result_sets, hcond, ih]
      · simp only [Bool.not_eq_true] at hcond
        simp [capture_result_sets, hcond, ih]

/-- Claim C10 witness: zero rows versus one row over the same column list
evaluated through capture and comparison. -/
theorem capture_omits_empty_sets_witness :
    compare_results default_comparator
        (capture_result_sets [{ description := some ["a"], rows := [] }])
        (capture_result_sets [{ description := some ["a"], rows := [[Value.int 1]] }]) =
      { is_equal := false
        differences := [Difference.result_set_count 0 1]
        result_set_count_match := false
        column_structure_match := false
        data_match := false
        error_message := Option.none } :=
  capture_omits_empty_sets.2.1 ["a"] [[Value.int 1]] (by decide) (by decide)

lemma started_count_le (cancel : Nat → Bool) :
    ∀ (n i : Nat), started_count cancel i n ≤ n := by
  intro n
  induction n with
  | zero => intro i; simp [started_count]
  | succ m ih =>
    intro i
    by_cases hc : cancel i = true
    · simp [started_count, hc]
    · simp only [started_count, hc, if_false]
      exact Nat.succ_le_succ (ih (i + 1))

lemma started_count_before (cancel : Nat → Bool) :
    ∀ (n i j : Nat), j < started_count cancel i n → cancel (i + j) = false := by
  intro n
  induction n with
  | zero => intro i j h; simp [started_count] at h
  | succ m ih =>
    intro i j h
    by_cases hc : cancel i = true
    · simp [started_count, hc] at h
    · rw [started_count, if_neg hc] at h
      cases j with
      | zero => simpa using Bool.eq_false_iff.mpr hc
      | succ j' =>
        have hj : j' < started_count cancel (i + 1) m := Nat.lt_of_succ_lt_succ h
        have hres := ih (i + 1) j' hj
        have heq : i + (j' + 1) = i + 1 + j' := by omega
        rw [heq]
        exact hres

lemma started_count_at (cancel : Nat → Bool) :
    ∀ (n i : Nat), started_count cancel i n < n →
      cancel (i + started_count cancel i n) = true := by
  intro n
  induction n with
  | zero => intro i h; exact absurd h (Nat.not_lt_zero _)
  | succ m ih =>
    intro i h
    by_cases hc : cancel i = true
    · simp [started_count, hc]
    · rw [started_count, if_neg hc] at h ⊢
      have hlt : started_count cancel (i + 1) m < m := Nat.lt_of_succ_lt_succ h
      have hres := ih (i + 1) hlt
      have heq : i + (started_count cancel (i + 1) m + 1) =
          i + 1 + started_count cancel (i + 1) m := by omega
      rw [heq]
      exact hres

lemma emt_loop_spec (ct : Nat) (cancel : Nat → Bool) (envs : Nat → TestEnv) (total : Nat) :
    ∀ (tcs : List TestCase) (i : Nat),
      execute_multiple_tests_loop ct cancel envs total tcs i =
        ((List.range (started_count cancel i tcs.length)).map
            (fun j => (execute_test ct (envs (i + j)) (tcs.getD j dummy_test_case)).1),
         ((List.range (started_count cancel i tcs.length)).map
            (fun j => [BatchEvent.progress (i + j) total, BatchEvent.run (i + j)])).flatten,
         if started_count cancel i tcs.length < tcs.length then
           i + started_count cancel i tcs.length + 1
         else i + started_count cancel i tcs.length) := by
  intro tcs
  induction tcs with
  | nil =>
    intro i
    simp [execute_multiple_tests_loop, started_count]
  | cons tc rest ih =>
    intro i
    by_cases hc : cancel i = true
    · simp [execute_multiple_tests_loop, started_count, hc]
    · have hc' : cancel i = false := Bool.eq_false_iff.mpr hc
      simp only [execute_multiple_tests_loop, hc', List.length_cons, started_count,
        Bool.false_eq_true, if_false]
      rw [ih (i + 1)]
      dsimp only
      refine congrArg₂ Prod.mk ?_ (congrArg₂ Prod.mk ?_ ?_)
      · rw [List.range_succ_eq_map, List.map_cons, List.map_map]
        refine congrArg₂ List.cons ?_ (List.map_congr_left ?_)
        · simp
        · intro j _
          simp only [Function.comp_apply, List.getD_cons_succ]
          have heq : i + 1 + j = i + Nat.succ j := by omega
          rw [heq]
      · rw [List.range_succ_eq_map, List.map_cons, List.map_map, List.flatten_cons]
        simp only [Nat.add_zero, List.cons_append, List.nil_append]
        refine congrArg₂ List.cons rfl (congrArg₂ List.cons rfl (congrArg List.flatten ?_))
        refine List.map_congr_left ?_
        intro j _
        simp only [Function.comp_apply]
        have heq : i + 1 + j = i + Nat.succ j := by omega
        rw [heq]
      · have hiff : (started_count cancel (i + 1) rest.length + 1 < rest.length + 1) ↔
            (started_count cancel (i + 1) rest.length < rest.length) := by omega
        by_cases h2 : started_count cancel (i + 1) rest.length < rest.length
        · rw [if_pos h2, if_pos (hiff.mpr h2)]
          omega
        · rw [if_neg h2, if_neg (fun hh => h2 (hiff.mp hh))]
          omega

/-- Claim C9 (confirmed): under a monotone cancellation flag, the batch loop
starts exactly the leading run of test cases whose pre-test flag read is
clear; the collected results are returned in input order, one per started
test case; a progress callback with the current index precedes each started
test case and no later test case starts; and the final 100-percent callback
fires iff no read of the run — the final one included — observed the
flag set. -/
theorem batch_cancellation_protocol (ct : Nat) (cancel : Nat → Bool) (envs : Nat → TestEnv)
    (tcs : List TestCase)
    (hmono : ∀ i j, i ≤ j → cancel i = true → cancel j = true) :
    started_count cancel 0 tcs.length ≤ tcs.length ∧
    (∀ j, j < started_count cancel 0 tcs.length → cancel j = false) ∧
    (started_count cancel 0 tcs.length < tcs.length →
      cancel (started_count cancel 0 tcs.length) = true) ∧
    (execute_multiple_tests ct cancel envs tcs).1.length =
      started_count cancel 0 tcs.length ∧
    (execute_multiple_tests ct cancel envs tcs).1 =
      (List.range (started_count cancel 0 tcs.length)).map
        (fun j => (execute_test ct (envs j) (tcs.getD j dummy_test_case)).1) ∧
    (execute_multiple_tests ct cancel envs tcs).2 =
      ((List.range (started_count cancel 0 tcs.length)).map
          (fun j => [BatchEvent.progress j tcs.length, BatchEvent.run j])).flatten ++
        (if cancel (batch_final_read cancel tcs) then []
         else [BatchEvent.progress tcs.length tcs.length]) ∧
    ((cancel (batch_final_read cancel tcs) = false) ↔
      ∀ j, j ≤ batch_final_read cancel tcs → cancel j = false) := by
  have hspec := emt_loop_spec ct cancel envs tcs.length tcs 0
  have hzero : ∀ j : Nat, 0 + j = j := fun j => Nat.zero_add j
  have harg : (if started_count cancel 0 tcs.length < tcs.length then
      0 + started_count cancel 0 tcs.length + 1
      else 0 + started_count cancel 0 tcs.length) = batch_final_read cancel tcs := by
    simp only [batch_final_read, Nat.zero_add]
  refine ⟨started_count_le cancel tcs.length 0, ?_, ?_, ?_, ?_, ?_, ?_⟩
  · intro j hj
    have := started_count_before cancel tcs.length 0 j hj
    rwa [hzero j] at this
  · intro h
    have := started_count_at cancel tcs.length 0 h
    rwa [hzero _] at this
  · simp only [execute_multiple_tests]
    rw [hspec]
    simp
  · simp only [execute_multiple_tests]
    rw [hspec]
    dsimp only
    refine List.map_congr_left ?_
    intro j _
    rw [hzero j]
  · simp only [execute_multiple_tests]
    rw [hspec]
    dsimp only
    rw [harg]
    refine congrArg₂ List.append (congrArg List.flatten (List.map_congr_left ?_)) rfl
    intro j _
    rw [hzero j]
  · constructor
    · intro h j hj
      by_contra hcon
      have hj' : cancel j = true := by
        cases hcv : cancel j
        · exact absurd hcv hcon
        · rfl
      have := hmono j (batch_final_read cancel tcs) hj hj'
      rw [this] at h
      cases h
    · intro hall
      exact hall (batch_final_read cancel tcs) le_rfl

/-- Claim C9 witness: with the flag set from read 2 on, a three-case batch
returns exactly two results. -/
theorem batch_cancellation_protocol_witness :
    (execute_multiple_tests 30 c9_cancel c9_envs c9_cases).1.length = 2 := by
  have hmono : ∀ i j, i ≤ j → c9_cancel i = true → c9_cancel j = true := by
    intro i j hij hi
    simp only [c9_cancel, decide_eq_true_eq] at hi ⊢
    omega
  have h := (batch_cancellation_protocol 30 c9_cancel c9_envs c9_cases hmono).2.2.2.1
  exact h.trans rfl

end MSSQL
